import Mathlib

/-!
Shallow embedding of the libvirt machine driver
(src/pkg/libvirt/constants.go, package libvirt) and proofs about its
lifecycle operations.

Modelling conventions:
  - A Go `error` is modelled as `Option Err` (`none` = nil error) with
    `Err := String` holding the message; functions returning `(T, error)`
    return a pair.
  - Calls into the libvirt API (`d.vm.SetMemoryFlags`, `d.vm.Shutdown`,
    `network.Create`, `d.getVolCapacity`, ...) are external effects: each
    operation takes the outcomes of those calls as oracle parameters, in
    the order the code makes the calls.  Where a claim counts the calls
    that were issued, the operation also returns a trace (`List HCall`)
    of the hypervisor calls it performed.
  - Go `int`/`int64` fields are modelled as `Int`; the conversions
    `uint64(x)`, `uint(x)` and `int(x)` that appear in the code are
    modelled explicitly modulo 2^64.
  - Polling loops (`for i := 0; i < 60; ...`) become structurally
    recursive functions on the remaining fuel, keeping the iteration
    index explicit.
-/

namespace MachineDriverKvm

/-- Go errors modelled by their message. -/
abbrev Err := String

/-- Abstract machine states from github.com/code-ready/machine/libmachine/state
used by the driver (state.None, state.Running, ...). -/
inductive MachineState where
  | None
  | Running
  | Paused
  | Saved
  | Stopped
  | Error
  deriving DecidableEq, Repr

/-- Native libvirt domain state values (libvirt-go DomainState enum). -/
def DOMAIN_NOSTATE : Nat := 0

def DOMAIN_RUNNING : Nat := 1

def DOMAIN_BLOCKED : Nat := 2

def DOMAIN_PAUSED : Nat := 3

def DOMAIN_SHUTDOWN : Nat := 4

def DOMAIN_SHUTOFF : Nat := 5

def DOMAIN_CRASHED : Nat := 6

def DOMAIN_PMSUSPENDED : Nat := 7

/-- The persisted driver record (the embedded libvirtdriver.Driver state that
UpdateConfigRaw replaces wholesale with `*d.Driver = newDriver`).  Only the
fields the verified operations touch are modelled. -/
structure DriverState where
  MachineName : String
  Memory : Int
  CPU : Int
  Network : String
  SSHKeyPath : String
  DiskCapacity : Int
  IPAddress : String
  deriving DecidableEq, Repr

/-- Hypervisor calls the driver issues, recorded in traces where a claim
counts them. -/
inductive HCall where
  | shutdown
  | setMemMax (kib : Nat)
  | setMemCfg (kib : Nat)
  | setVcpuMax (c : Nat)
  | setVcpuCfg (c : Nat)
  | volCapQuery
  | resize (bytes : Int)
  | netCreate
  deriving DecidableEq, Repr

/-- Go conversion `uint64(x)` for a signed 64-bit `x`: reduce modulo 2^64. -/
def uint64OfInt (x : Int) : Nat := (x % (2 ^ 64 : Int)).toNat

/-- Go conversion `int(x)` for an unsigned 64-bit `x`. -/
def int64OfUint64 (x : Nat) : Int :=
  if x % 2 ^ 64 < 2 ^ 63 then ((x % 2 ^ 64 : Nat) : Int)
  else ((x % 2 ^ 64 : Nat) : Int) - 2 ^ 64

/-- convertMBToKiB: `uint64(sizeMb) * 1000 * 1000 / 1024` with uint64
(mod 2^64) arithmetic at every step, exactly as Go evaluates it. -/
def convertMBToKiB (sizeMb : Int) : Nat :=
  uint64OfInt sizeMb * 1000 % 2 ^ 64 * 1000 % 2 ^ 64 / 1024

namespace Driver

/-- Driver.GetState: propagate a validateVMRef failure (returning state.None),
propagate a vm.GetState failure (returning state.None), otherwise map the
native state through the switch in the source, whose fallthrough returns
state.None with nil error.  `vmRef` is the result of validateVMRef and
`query` the result of `d.vm.GetState()`. -/
def GetState (vmRef : Option Err) (query : Except Err Nat) :
    MachineState × Option Err :=
  match vmRef with
  | some e => (MachineState.None, some e)
  | none =>
    match query with
    | .error e => (MachineState.None, some e)
    | .ok virState =>
      if virState = DOMAIN_NOSTATE then (MachineState.None, none)
      else if virState = DOMAIN_RUNNING then (MachineState.Running, none)
      else if virState = DOMAIN_BLOCKED then (MachineState.Error, none)
      else if virState = DOMAIN_PAUSED then (MachineState.Paused, none)
      else if virState = DOMAIN_SHUTDOWN then (MachineState.Stopped, none)
      else if virState = DOMAIN_CRASHED then (MachineState.Error, none)
      else if virState = DOMAIN_PMSUSPENDED then (MachineState.Saved, none)
      else if virState = DOMAIN_SHUTOFF then (MachineState.Stopped, none)
      else (MachineState.None, none)

/-- Driver.setMemory: after validateVMRef, `SetMemoryFlags(kib, MEM_MAXIMUM)`
then `SetMemoryFlags(kib, MEM_CONFIG)`, each fail-fast; `d.Memory` is written
only after both succeed.  `memMaxRes`/`memCfgRes` are the outcomes of the two
libvirt calls. -/
def setMemory (vmRef memMaxRes memCfgRes : Option Err) (memorySize : Int)
    (d : DriverState) : DriverState × Option Err × List HCall :=
  match vmRef with
  | some e => (d, some e, [])
  | none =>
    let kib := convertMBToKiB memorySize
    match memMaxRes with
    | some e => (d, some e, [HCall.setMemMax kib])
    | none =>
      match memCfgRes with
      | some e => (d, some e, [HCall.setMemMax kib, HCall.setMemCfg kib])
      | none =>
        ({ d with Memory := memorySize }, none,
          [HCall.setMemMax kib, HCall.setMemCfg kib])

/-- Driver.setVcpus: after validateVMRef,
`SetVcpusFlags(cpus, VCPU_CONFIG|VCPU_MAXIMUM)` then
`SetVcpusFlags(cpus, VCPU_CONFIG)`, each fail-fast; `d.CPU = int(cpus)` is
written only after both succeed. -/
def setVcpus (vmRef vcpuMaxRes vcpuCfgRes : Option Err) (cpus : Nat)
    (d : DriverState) : DriverState × Option Err × List HCall :=
  match vmRef with
  | some e => (d, some e, [])
  | none =>
    match vcpuMaxRes with
    | some e => (d, some e, [HCall.setVcpuMax cpus])
    | none =>
      match vcpuCfgRes with
      | some e => (d, some e, [HCall.setVcpuMax cpus, HCall.setVcpuCfg cpus])
      | none =>
        ({ d with CPU := int64OfUint64 cpus }, none,
          [HCall.setVcpuMax cpus, HCall.setVcpuCfg cpus])

/-- The IP-acquisition loop inside Driver.Start:
`for i := 0; i < 60; i++ { ip, err := d.GetIP(); ... }`.
`getIP i` is the outcome of the GetIP call at iteration `i`; an error aborts
Start with the wrapped message, an empty IP continues, a non-empty IP is
recorded in `d.IPAddress` and breaks the loop.  Falling off the end of the
loop is not an error. -/
def startLoop (getIP : Nat → Except Err String) :
    Nat → Nat → DriverState → DriverState × Option Err
  | 0, _, d => (d, none)
  | fuel + 1, i, d =>
    match getIP i with
    | .error e => (d, some (e ++ ": getting ip during machine start"))
    | .ok ip =>
      if ip = "" then startLoop getIP fuel (i + 1) d
      else ({ d with IPAddress := ip }, none)

/-- Driver.Start: validateVMRef, validateNetwork, validateStoragePool
(each fail-fast), then if DiskCapacity is 0 query the volume capacity and
record it, then `d.vm.Create()` (power on), then return immediately when no
network is configured, otherwise run the 60-iteration IP poll loop.
Start returns nil after the loop whether or not an IP was found. -/
def Start (vmRef netVal poolVal : Option Err) (volCap : Except Err Int)
    (createRes : Option Err) (getIP : Nat → Except Err String)
    (d : DriverState) : DriverState × Option Err :=
  match vmRef with
  | some e => (d, some e)
  | none =>
    match netVal with
    | some e => (d, some e)
    | none =>
      match poolVal with
      | some e => (d, some e)
      | none =>
        let capStep : Except Err DriverState :=
          if d.DiskCapacity = 0 then
            match volCap with
            | .error e => .error e
            | .ok c => .ok { d with DiskCapacity := c }
          else .ok d
        match capStep with
        | .error e => (d, some e)
        | .ok d1 =>
          match createRes with
          | some e => (d1, some e)
          | none =>
            if d1.Network = "" then (d1, none)
            else startLoop getIP 60 0 d1

/-- Graceful-shutdown timeout message returned by Driver.Stop. -/
def gracefulShutdownTimeoutMsg : Err :=
  "VM Failed to gracefully shutdown, try the kill command"

/-- The shutdown-wait loop inside Driver.Stop:
`for i := 0; i < 120; i++ { time.Sleep(time.Second); s, _ := d.GetState(); ... }`.
`poll i` is the (state, error) pair GetState returns at iteration `i`; the
error component is discarded by the code.  The loop returns nil as soon as a
poll reports Stopped and the timeout error when the budget is exhausted. -/
def stopLoop (poll : Nat → MachineState × Option Err) :
    Nat → Nat → Option Err
  | 0, _ => some gracefulShutdownTimeoutMsg
  | fuel + 1, i =>
    if (poll i).1 = MachineState.Stopped then none
    else stopLoop poll fuel (i + 1)

/-- Driver.Stop: validateVMRef, then GetState (fail-fast on its error);
if the state is not Stopped, issue `d.vm.Shutdown()` (fail-fast) and run the
120-iteration wait loop; if the state is already Stopped return nil without
any shutdown call.  `query0` is the native-state query backing the initial
GetState call, `shutdownRes` the outcome of `d.vm.Shutdown()`. -/
def Stop (vmRef : Option Err) (query0 : Except Err Nat)
    (shutdownRes : Option Err) (poll : Nat → MachineState × Option Err) :
    Option Err × List HCall :=
  match vmRef with
  | some e => (some e, [])
  | none =>
    match GetState vmRef query0 with
    | (_, some e) => (some e, [])
    | (s, none) =>
      if s ≠ MachineState.Stopped then
        match shutdownRes with
        | some e => (some e, [HCall.shutdown])
        | none => (stopLoop poll 120 0, [HCall.shutdown])
      else (none, [])

/-- Driver.Remove: validateVMRef, then `_ = d.vm.Destroy()` with the error
explicitly discarded, then `return d.vm.Undefine()`. -/
def Remove (vmRef destroyRes undefineRes : Option Err) : Option Err :=
  match vmRef with
  | some e => some e
  | none =>
    let _ := destroyRes
    undefineRes

end Driver

/-- One ip element of a parsed libvirtxml.Network descriptor; only the
Address field is inspected by validateNetwork. -/
structure NetworkIP where
  Address : String
  deriving DecidableEq, Repr

/-- A parsed libvirtxml.Network descriptor; only the IPs list is inspected
by validateNetwork. -/
structure NetworkXML where
  IPs : List NetworkIP
  deriving DecidableEq, Repr

namespace Driver

/-- Driver.validateNetwork: nil when no network is configured; otherwise
getConn, LookupNetworkByName (wrapped with a remediation hint), GetXMLDesc
and Unmarshal, each fail-fast; then require exactly one entry in nw.IPs,
require its Address to be non-empty, and if `network.IsActive()` reported
false, call `network.Create()` and propagate its error.  The trace records
whether the reactivation call was issued. -/
def validateNetwork (networkName : String) (connRes : Option Err)
    (lookupRes : Option Err) (xmlRes : Except Err String)
    (unmarshalRes : Except Err NetworkXML) (isActive : Bool)
    (createRes : Option Err) : Option Err × List HCall :=
  if networkName = "" then (none, [])
  else
    match connRes with
    | some e => (some e, [])
    | none =>
      match lookupRes with
      | some e =>
        (some ("Use 'crc setup' to define the network, " ++ e), [])
      | none =>
        match xmlRes with
        | .error e => (some e, [])
        | .ok _ =>
          match unmarshalRes with
          | .error e => (some e, [])
          | .ok nw =>
            match nw.IPs with
            | [ip0] =>
              if ip0.Address = "" then
                (some (networkName ++ " network doesn't have DHCP configured"),
                  [])
              else if ¬ isActive then
                match createRes with
                | some e => (some e, [HCall.netCreate])
                | none => (none, [HCall.netCreate])
              else (none, [])
            | _ =>
              (some ("unexpected number of IPs for network " ++ networkName),
                [])

/-- Driver.UpdateConfigRaw: unmarshal the raw config into `newDriver`
(fail-fast); if newDriver.Memory differs from d.Memory run setMemory
(fail-fast); if newDriver.CPU differs from the driver's CPU run
setVcpus(uint(newDriver.CPU)) (fail-fast); the SSHKeyPath difference is only
logged; then getVolCapacity unconditionally (fail-fast); if
newDriver.DiskCapacity is non-zero and differs from the queried capacity,
resizeDiskImage (fail-fast); finally `*d.Driver = newDriver`. -/
def UpdateConfigRaw (parseRes : Except Err DriverState)
    (vmRef memMaxRes memCfgRes vcpuMaxRes vcpuCfgRes : Option Err)
    (volCap : Except Err Int) (resizeRes : Option Err)
    (d : DriverState) : DriverState × Option Err × List HCall :=
  match parseRes with
  | .error e => (d, some e, [])
  | .ok newDriver =>
    let memStep : DriverState × Option Err × List HCall :=
      if newDriver.Memory ≠ d.Memory then
        setMemory vmRef memMaxRes memCfgRes newDriver.Memory d
      else (d, none, [])
    match memStep with
    | (d1, some e, tr1) => (d1, some e, tr1)
    | (d1, none, tr1) =>
      let cpuStep : DriverState × Option Err × List HCall :=
        if newDriver.CPU ≠ d1.CPU then
          setVcpus vmRef vcpuMaxRes vcpuCfgRes (uint64OfInt newDriver.CPU) d1
        else (d1, none, [])
      match cpuStep with
      | (d2, some e, tr2) => (d2, some e, tr1 ++ tr2)
      | (d2, none, tr2) =>
        match volCap with
        | .error e => (d2, some e, tr1 ++ tr2 ++ [HCall.volCapQuery])
        | .ok diskCapacity =>
          if newDriver.DiskCapacity ≠ 0 ∧
              newDriver.DiskCapacity ≠ diskCapacity then
            match resizeRes with
            | some e =>
              (d2, some e,
                tr1 ++ tr2 ++
                  [HCall.volCapQuery, HCall.resize newDriver.DiskCapacity])
            | none =>
              (newDriver, none,
                tr1 ++ tr2 ++
                  [HCall.volCapQuery, HCall.resize newDriver.DiskCapacity])
          else (newDriver, none, tr1 ++ tr2 ++ [HCall.volCapQuery])

end Driver

/-- C1: GetState maps each native libvirt domain state to exactly one
abstract state: NoState to None, Running to Running, Blocked to Error,
Paused to Paused, Shutdown to Stopped, Crashed to Error, PMSuspended to
Saved and Shutoff to Stopped; in particular Blocked and Crashed both map
to Error, and Shutdown and Shutoff both map to Stopped. -/
theorem getState_maps_native_states :
    Driver.GetState none (.ok DOMAIN_NOSTATE) = (MachineState.None, none) ∧
    Driver.GetState none (.ok DOMAIN_RUNNING) = (MachineState.Running, none) ∧
    Driver.GetState none (.ok DOMAIN_BLOCKED) = (MachineState.Error, none) ∧
    Driver.GetState none (.ok DOMAIN_PAUSED) = (MachineState.Paused, none) ∧
    Driver.GetState none (.ok DOMAIN_SHUTDOWN) = (MachineState.Stopped, none) ∧
    Driver.GetState none (.ok DOMAIN_CRASHED) = (MachineState.Error, none) ∧
    Driver.GetState none (.ok DOMAIN_PMSUSPENDED) = (MachineState.Saved, none) ∧
    Driver.GetState none (.ok DOMAIN_SHUTOFF) = (MachineState.Stopped, none) := by
  decide

/-- A concrete driver record used by witnesses (defaults from the source:
DefaultMemory 8096, DefaultCPUs 4, DefaultNetwork "crc"). -/
def sampleDriver : DriverState :=
  { MachineName := "crc", Memory := 8096, CPU := 4, Network := "crc",
    SSHKeyPath := "", DiskCapacity := 0, IPAddress := "" }

/-- C5: setMemory issues the maximum-limit call then the configured-limit
call and setVcpus the maximum-plus-config call then the config call, each
sequence fail-fast: if either call of a pair fails the operation returns
that error with the locally recorded memory (resp. CPU count) unchanged,
and the local record is updated only after both calls succeed. -/
theorem setMemory_setVcpus_pairs_fail_fast (m : Int) (c : Nat)
    (d : DriverState) (e : Err) (r : Option Err) :
    Driver.setMemory none none none m d =
      ({ d with Memory := m }, none,
        [HCall.setMemMax (convertMBToKiB m), HCall.setMemCfg (convertMBToKiB m)]) ∧
    Driver.setMemory none (some e) r m d =
      (d, some e, [HCall.setMemMax (convertMBToKiB m)]) ∧
    Driver.setMemory none none (some e) m d =
      (d, some e,
        [HCall.setMemMax (convertMBToKiB m), HCall.setMemCfg (convertMBToKiB m)]) ∧
    Driver.setVcpus none none none c d =
      ({ d with CPU := int64OfUint64 c }, none,
        [HCall.setVcpuMax c, HCall.setVcpuCfg c]) ∧
    Driver.setVcpus none (some e) r c d =
      (d, some e, [HCall.setVcpuMax c]) ∧
    Driver.setVcpus none none (some e) c d =
      (d, some e, [HCall.setVcpuMax c, HCall.setVcpuCfg c]) :=
  ⟨rfl, rfl, rfl, rfl, rfl, rfl⟩

/-- C8: when the VM handle resolves, Remove discards the forced power-off
error and returns exactly the undefine result: a failed destroy with a
successful undefine is overall success, and a failed undefine is the
overall error. -/
theorem remove_returns_undefine_result (destroyRes undefineRes : Option Err)
    (e : Err) :
    Driver.Remove none destroyRes undefineRes = undefineRes ∧
    Driver.Remove none (some e) none = none ∧
    Driver.Remove none destroyRes (some e) = some e :=
  ⟨rfl, rfl, rfl⟩

/-- C6 fails as stated: the code computes `uint64(sizeMb) * 1000 * 1000 /
1024` with wrapping uint64 arithmetic, so for the memory value -1 MB the
value passed is (2^64 - 1000000) / 1024 = 18014398509481007 KiB, not
(-1 * 1000000) / 1024 = -976. -/
theorem convertMBToKiB_formula_counterexample :
    convertMBToKiB (-1) = 18014398509481007 ∧
    ¬ ((convertMBToKiB (-1) : Int) = Int.tdiv ((-1) * 1000000) 1024) := by
  refine ⟨by decide, by decide⟩

/-- C6 (amended): for every memory value M with 0 ≤ M and M * 1000000 <
2^64, the value setMemory passes to the hypervisor as both memory limits is
exactly M * 1_000_000 / 1024 KiB with truncating integer division; outside
that range the uint64 arithmetic wraps modulo 2^64. -/
theorem setMemory_passes_converted_kib (m : Int) (d : DriverState)
    (h0 : 0 ≤ m) (h1 : m * 1000000 < 2 ^ 64) :
    (convertMBToKiB m : Int) = Int.tdiv (m * 1000000) 1024 ∧
    (Driver.setMemory none none none m d).2.2 =
      [HCall.setMemMax (convertMBToKiB m), HCall.setMemCfg (convertMBToKiB m)] := by
  constructor
  · obtain ⟨n, rfl⟩ := Int.eq_ofNat_of_zero_le h0
    have hb : n * 1000000 < 2 ^ 64 := by exact_mod_cast h1
    have hn : n < 2 ^ 64 := by
      calc n = n * 1 := (Nat.mul_one n).symm
        _ ≤ n * 1000000 := Nat.mul_le_mul_left n (by norm_num)
        _ < 2 ^ 64 := hb
    have h1000 : n * 1000 < 2 ^ 64 := by
      calc n * 1000 ≤ n * 1000000 := Nat.mul_le_mul_left n (by norm_num)
        _ < 2 ^ 64 := hb
    have hu : uint64OfInt (n : Int) = n := by
      unfold uint64OfInt
      rw [Int.emod_eq_of_lt (by positivity) (by exact_mod_cast hn)]
      exact Int.toNat_ofNat n
    have hval : convertMBToKiB (n : Int) = n * 1000000 / 1024 := by
      unfold convertMBToKiB
      rw [hu, Nat.mod_eq_of_lt h1000, Nat.mul_assoc,
        show (1000 * 1000 : Nat) = 1000000 from rfl, Nat.mod_eq_of_lt hb]
    rw [hval]
    rw [show ((n : Int) * 1000000) = ((n * 1000000 : Nat) : Int) by push_cast; ring,
      show (1024 : Int) = ((1024 : Nat) : Int) by norm_num]
    exact Int.ofNat_tdiv (n * 1000000) 1024
  · rfl

/-- C6 amended-claim witness at M = 4096 MB with the sample driver record. -/
theorem setMemory_passes_converted_kib_witness :
    (0 : Int) ≤ 4096 ∧ (4096 : Int) * 1000000 < 2 ^ 64 ∧
    ((convertMBToKiB 4096 : Int) = Int.tdiv ((4096 : Int) * 1000000) 1024 ∧
      (Driver.setMemory none none none 4096 sampleDriver).2.2 =
        [HCall.setMemMax (convertMBToKiB 4096),
         HCall.setMemCfg (convertMBToKiB 4096)]) :=
  ⟨by norm_num, by norm_num,
    setMemory_passes_converted_kib 4096 sampleDriver (by norm_num) (by norm_num)⟩

/-- C10: for every native state value outside the eight enumerated libvirt
cases, the switch in GetState falls through and returns state.None with nil
error, so the mapping is total over all native values. -/
theorem getState_default_none (v : Nat)
    (h0 : v ≠ DOMAIN_NOSTATE) (h1 : v ≠ DOMAIN_RUNNING)
    (h2 : v ≠ DOMAIN_BLOCKED) (h3 : v ≠ DOMAIN_PAUSED)
    (h4 : v ≠ DOMAIN_SHUTDOWN) (h5 : v ≠ DOMAIN_CRASHED)
    (h6 : v ≠ DOMAIN_PMSUSPENDED) (h7 : v ≠ DOMAIN_SHUTOFF) :
    Driver.GetState none (.ok v) = (MachineState.None, none) := by
  simp [Driver.GetState, h0, h1, h2, h3, h4, h5, h6, h7]

/-- C10 witness at the out-of-range native value 8. -/
theorem getState_default_none_witness :
    ((8 : Nat) ≠ DOMAIN_NOSTATE ∧ (8 : Nat) ≠ DOMAIN_RUNNING ∧
      (8 : Nat) ≠ DOMAIN_BLOCKED ∧ (8 : Nat) ≠ DOMAIN_PAUSED ∧
      (8 : Nat) ≠ DOMAIN_SHUTDOWN ∧ (8 : Nat) ≠ DOMAIN_CRASHED ∧
      (8 : Nat) ≠ DOMAIN_PMSUSPENDED ∧ (8 : Nat) ≠ DOMAIN_SHUTOFF) ∧
    Driver.GetState none (.ok 8) = (MachineState.None, none) :=
  ⟨by decide,
    getState_default_none 8 (by decide) (by decide) (by decide) (by decide)
      (by decide) (by decide) (by decide) (by decide)⟩

/-- If GetIP is empty on every iteration before k and non-empty at
iteration k (k within fuel), the Start poll loop records that IP. -/
theorem startLoop_finds (getIP : Nat → Except Err String) (ip : String)
    (hip : ip ≠ "") :
    ∀ (k fuel i : Nat) (d : DriverState), k < fuel →
      (∀ j, j < k → getIP (i + j) = .ok "") →
      getIP (i + k) = .ok ip →
      Driver.startLoop getIP fuel i d = ({ d with IPAddress := ip }, none) := by
  intro k
  induction k with
  | zero =>
    intro fuel i d hlt hempty hk
    match fuel, hlt with
    | fuel + 1, _ =>
      rw [Nat.add_zero] at hk
      simp [Driver.startLoop, hk, hip]
  | succ k ih =>
    intro fuel i d hlt hempty hk
    match fuel, hlt with
    | fuel + 1, hlt =>
      have h0 : getIP i = .ok "" := by simpa using hempty 0 (Nat.succ_pos k)
      have hrec : Driver.startLoop getIP (fuel + 1) i d =
          Driver.startLoop getIP fuel (i + 1) d := by
        simp [Driver.startLoop, h0]
      rw [hrec]
      apply ih fuel (i + 1) d (Nat.lt_of_succ_lt_succ hlt)
      · intro j hj
        have hj1 := hempty (j + 1) (Nat.succ_lt_succ hj)
        rw [show i + (j + 1) = i + 1 + j by omega] at hj1
        exact hj1
      · rw [show i + 1 + k = i + (k + 1) by omega]
        exact hk

/-- If GetIP is empty on every iteration, the Start poll loop falls off the
end leaving the driver record unchanged and reporting no error. -/
theorem startLoop_all_empty (getIP : Nat → Except Err String) :
    ∀ (fuel i : Nat) (d : DriverState),
      (∀ j, j < fuel → getIP (i + j) = .ok "") →
      Driver.startLoop getIP fuel i d = (d, none) := by
  intro fuel
  induction fuel with
  | zero => intro i d _; rfl
  | succ fuel ih =>
    intro i d hempty
    have h0 : getIP i = .ok "" := by simpa using hempty 0 (Nat.succ_pos fuel)
    have hrec : Driver.startLoop getIP (fuel + 1) i d =
        Driver.startLoop getIP fuel (i + 1) d := by
      simp [Driver.startLoop, h0]
    rw [hrec]
    apply ih
    intro j hj
    have hj1 := hempty (j + 1) (Nat.succ_lt_succ hj)
    rw [show i + (j + 1) = i + 1 + j by omega] at hj1
    exact hj1

/-- C2: when the VM handle, network validation, storage-pool validation and
power-on all succeed and a network is configured: if GetIP yields the
non-empty ip on poll k (zero-based, so the (k+1)-th poll, k < 60) and the
empty string on every earlier poll, Start returns success with that ip
recorded in the IP address field; if GetIP yields the empty string on all 60
polls, Start still returns success with the IP left empty. -/
theorem start_ip_polling (d : DriverState) (c : Int)
    (getIP : Nat → Except Err String) (k : Nat) (ip : String)
    (hnet : d.Network ≠ "") :
    (k < 60 → (∀ j, j < k → getIP j = .ok "") → getIP k = .ok ip → ip ≠ "" →
      (Driver.Start none none none (.ok c) none getIP d).2 = none ∧
      (Driver.Start none none none (.ok c) none getIP d).1.IPAddress = ip) ∧
    ((∀ j, j < 60 → getIP j = .ok "") → d.IPAddress = "" →
      (Driver.Start none none none (.ok c) none getIP d).2 = none ∧
      (Driver.Start none none none (.ok c) none getIP d).1.IPAddress = "") := by
  obtain ⟨d1, hS, hip1⟩ :
      ∃ d1, Driver.Start none none none (.ok c) none getIP d =
          Driver.startLoop getIP 60 0 d1 ∧ d1.IPAddress = d.IPAddress := by
    by_cases hdc : d.DiskCapacity = 0
    · exact ⟨{ d with DiskCapacity := c }, by simp [Driver.Start, hdc, hnet], rfl⟩
    · exact ⟨d, by simp [Driver.Start, hdc, hnet], rfl⟩
  constructor
  · intro hk hempty hhit hip
    have hloop := startLoop_finds getIP ip hip k 60 0 d1 hk
      (fun j hj => by simpa using hempty j hj) (by simpa using hhit)
    rw [hS, hloop]
    exact ⟨rfl, rfl⟩
  · intro hempty hipEmpty
    have hloop := startLoop_all_empty getIP 60 0 d1
      (fun j hj => by simpa using hempty j hj)
    rw [hS, hloop]
    refine ⟨rfl, ?_⟩
    rw [show (d1, (none : Option Err)).1.IPAddress = d1.IPAddress from rfl,
      hip1, hipEmpty]

/-- C2 witness: an IP found on the third poll is recorded, and sixty empty
polls still end in success with an empty IP. -/
theorem start_ip_polling_witness :
    ((Driver.Start none none none (.ok 32212254720) none
        (fun i => if i = 2 then .ok "192.168.126.11" else .ok "")
        sampleDriver).2 = none ∧
      (Driver.Start none none none (.ok 32212254720) none
        (fun i => if i = 2 then .ok "192.168.126.11" else .ok "")
        sampleDriver).1.IPAddress = "192.168.126.11") ∧
    ((Driver.Start none none none (.ok 32212254720) none
        (fun _ => .ok "") sampleDriver).2 = none ∧
      (Driver.Start none none none (.ok 32212254720) none
        (fun _ => .ok "") sampleDriver).1.IPAddress = "") :=
  ⟨(start_ip_polling sampleDriver 32212254720
      (fun i => if i = 2 then .ok "192.168.126.11" else .ok "") 2
      "192.168.126.11" (by decide)).1
      (by decide) (by intro j hj; interval_cases j <;> rfl) rfl (by decide),
    (start_ip_polling sampleDriver 32212254720 (fun _ => .ok "") 0 ""
      (by decide)).2 (by intro j hj; rfl) rfl⟩

/-- If some poll within the budget reports Stopped, the Stop wait loop
returns nil. -/
theorem stopLoop_finds (poll : Nat → MachineState × Option Err) :
    ∀ (fuel i : Nat),
      (∃ k, k < fuel ∧ (poll (i + k)).1 = MachineState.Stopped) →
      Driver.stopLoop poll fuel i = none := by
  intro fuel
  induction fuel with
  | zero =>
    rintro i ⟨k, hk, _⟩
    omega
  | succ fuel ih =>
    rintro i ⟨k, hk, hstop⟩
    by_cases h0 : (poll i).1 = MachineState.Stopped
    · simp [Driver.stopLoop, h0]
    · have hk0 : k ≠ 0 := by
        rintro rfl
        rw [Nat.add_zero] at hstop
        exact h0 hstop
      obtain ⟨m, rfl⟩ : ∃ m, k = m + 1 := ⟨k - 1, by omega⟩
      simp only [Driver.stopLoop]
      rw [if_neg h0]
      apply ih (i + 1)
      refine ⟨m, by omega, ?_⟩
      rw [show i + 1 + m = i + (m + 1) by omega]
      exact hstop

/-- If no poll within the budget reports Stopped, the Stop wait loop returns
the graceful-shutdown timeout error. -/
theorem stopLoop_exhausts (poll : Nat → MachineState × Option Err) :
    ∀ (fuel i : Nat),
      (∀ k, k < fuel → (poll (i + k)).1 ≠ MachineState.Stopped) →
      Driver.stopLoop poll fuel i = some Driver.gracefulShutdownTimeoutMsg := by
  intro fuel
  induction fuel with
  | zero => intro i _; rfl
  | succ fuel ih =>
    intro i hall
    have h0 : (poll i).1 ≠ MachineState.Stopped := by
      simpa using hall 0 (Nat.succ_pos fuel)
    simp only [Driver.stopLoop]
    rw [if_neg h0]
    apply ih
    intro k hk
    have hk1 := hall (k + 1) (Nat.succ_lt_succ hk)
    rw [show i + (k + 1) = i + 1 + k by omega] at hk1
    exact hk1

/-- C3: when the VM handle resolves, Stop on a VM whose state is already
Stopped succeeds without any shutdown call; otherwise it issues one graceful
shutdown and polls the state up to 120 times, succeeding as soon as a poll
reports Stopped and failing with the graceful-shutdown timeout error
(recommending the kill command) when all 120 polls are exhausted. -/
theorem stop_idempotent_and_polls (query0 : Except Err Nat)
    (shutdownRes : Option Err) (poll : Nat → MachineState × Option Err)
    (s : MachineState) :
    (Driver.GetState none query0 = (MachineState.Stopped, none) →
      Driver.Stop none query0 shutdownRes poll = (none, [])) ∧
    (Driver.GetState none query0 = (s, none) → s ≠ MachineState.Stopped →
      (∃ k, k < 120 ∧ (poll k).1 = MachineState.Stopped) →
      Driver.Stop none query0 none poll = (none, [HCall.shutdown])) ∧
    (Driver.GetState none query0 = (s, none) → s ≠ MachineState.Stopped →
      (∀ k, k < 120 → (poll k).1 ≠ MachineState.Stopped) →
      Driver.Stop none query0 none poll =
        (some Driver.gracefulShutdownTimeoutMsg, [HCall.shutdown])) := by
  refine ⟨?_, ?_, ?_⟩
  · intro h
    simp [Driver.Stop, h]
  · intro h hs hex
    have hloop := stopLoop_finds poll 120 0
      (by obtain ⟨k, hk, hst⟩ := hex; exact ⟨k, hk, by simpa using hst⟩)
    simp [Driver.Stop, h, hs, hloop]
  · intro h hs hall
    have hloop := stopLoop_exhausts poll 120 0
      (fun k hk => by simpa using hall k hk)
    simp [Driver.Stop, h, hs, hloop]

/-- C3 witness: a shut-off VM makes Stop a no-op; a running VM that reaches
Stopped on the fourth poll yields success after one shutdown call; a VM that
never stops yields the timeout error after one shutdown call. -/
theorem stop_idempotent_and_polls_witness :
    (Driver.GetState none (.ok DOMAIN_SHUTOFF) =
        (MachineState.Stopped, none) ∧
      Driver.Stop none (.ok DOMAIN_SHUTOFF) none
        (fun _ => (MachineState.Running, none)) = (none, [])) ∧
    Driver.Stop none (.ok DOMAIN_RUNNING) none
      (fun i => (if i = 3 then MachineState.Stopped else MachineState.Running,
        none)) = (none, [HCall.shutdown]) ∧
    Driver.Stop none (.ok DOMAIN_RUNNING) none
      (fun _ => (MachineState.Running, none)) =
      (some Driver.gracefulShutdownTimeoutMsg, [HCall.shutdown]) :=
  ⟨⟨by decide,
    (stop_idempotent_and_polls (.ok DOMAIN_SHUTOFF) none
      (fun _ => (MachineState.Running, none)) MachineState.Running).1
      (by decide)⟩,
    (stop_idempotent_and_polls (.ok DOMAIN_RUNNING) none
      (fun i => (if i = 3 then MachineState.Stopped else MachineState.Running,
        none)) MachineState.Running).2.1
      (by decide) (by decide) ⟨3, by decide, by decide⟩,
    (stop_idempotent_and_polls (.ok DOMAIN_RUNNING) none
      (fun _ => (MachineState.Running, none)) MachineState.Running).2.2
      (by decide) (by decide) (by decide)⟩

/-- Whether a hypervisor call is one of the two memory live-update calls. -/
def HCall.isMemUpdate : HCall → Bool
  | .setMemMax _ => true
  | .setMemCfg _ => true
  | _ => false

/-- Whether a hypervisor call is one of the two vCPU live-update calls. -/
def HCall.isVcpuUpdate : HCall → Bool
  | .setVcpuMax _ => true
  | .setVcpuCfg _ => true
  | _ => false

/-- Whether a hypervisor call is a disk resize. -/
def HCall.isResize : HCall → Bool
  | .resize _ => true
  | _ => false

/-- C4: with an old driver record holding memory=8096 and CPU=4 and a new
configuration holding memory=4096, CPU=4 (disk capacity 0), a successful
UpdateConfigRaw issues exactly the memory live-update pair and the
unconditional capacity query — no vCPU update — and the recorded state
afterwards is the new configuration, hence memory=4096 and CPU=4; in
general, under successful calls, the memory (resp. vCPU) live-update is
issued iff that field differs between the new configuration and the current
driver state. -/
theorem updateConfigRaw_diff_updates
    (n1 n2 nw1 nw2 kp1 kp2 ip1 ip2 : String) (dc1 c : Int)
    (newDriver d : DriverState) :
    (Driver.UpdateConfigRaw
        (.ok ⟨n2, 4096, 4, nw2, kp2, 0, ip2⟩) none none none none none
        (.ok c) none ⟨n1, 8096, 4, nw1, kp1, dc1, ip1⟩ =
      (⟨n2, 4096, 4, nw2, kp2, 0, ip2⟩, none,
        [HCall.setMemMax (convertMBToKiB 4096),
         HCall.setMemCfg (convertMBToKiB 4096), HCall.volCapQuery])) ∧
    ((Driver.UpdateConfigRaw (.ok newDriver) none none none none none
        (.ok c) none d).2.2.any HCall.isMemUpdate = true ↔
      newDriver.Memory ≠ d.Memory) ∧
    ((Driver.UpdateConfigRaw (.ok newDriver) none none none none none
        (.ok c) none d).2.2.any HCall.isVcpuUpdate = true ↔
      newDriver.CPU ≠ d.CPU) := by
  refine ⟨?_, ?_, ?_⟩
  · norm_num [Driver.UpdateConfigRaw, Driver.setMemory]
  · by_cases hm : newDriver.Memory = d.Memory <;>
      by_cases hc : newDriver.CPU = d.CPU <;>
        by_cases hd : newDriver.DiskCapacity ≠ 0 ∧ newDriver.DiskCapacity ≠ c <;>
          simp [Driver.UpdateConfigRaw, Driver.setMemory, Driver.setVcpus,
            HCall.isMemUpdate, hm, hc, hd]
  · by_cases hm : newDriver.Memory = d.Memory <;>
      by_cases hc : newDriver.CPU = d.CPU <;>
        by_cases hd : newDriver.DiskCapacity ≠ 0 ∧ newDriver.DiskCapacity ≠ c <;>
          simp [Driver.UpdateConfigRaw, Driver.setMemory, Driver.setVcpus,
            HCall.isVcpuUpdate, hm, hc, hd]

/-- C7: with a network configured and the connection, lookup, descriptor
fetch and parse all succeeding: a descriptor whose subnet-entry list does
not have exactly one element yields the wrong-IP-count configuration error;
one subnet entry without a DHCP address yields the no-DHCP configuration
error; a descriptor passing both checks whose network object is inactive
triggers the reactivation call, whose failure is returned rather than
ignored. -/
theorem validateNetwork_checks (networkName xmldoc addr : String)
    (hn : networkName ≠ "") (ips : List NetworkIP) (hips : ips.length ≠ 1)
    (isActive : Bool) (createRes : Option Err) :
    (Driver.validateNetwork networkName none none (.ok xmldoc)
        (.ok ⟨ips⟩) isActive createRes =
      (some ("unexpected number of IPs for network " ++ networkName), [])) ∧
    (Driver.validateNetwork networkName none none (.ok xmldoc)
        (.ok ⟨[⟨""⟩]⟩) isActive createRes =
      (some (networkName ++ " network doesn't have DHCP configured"), [])) ∧
    (addr ≠ "" →
      Driver.validateNetwork networkName none none (.ok xmldoc)
        (.ok ⟨[⟨addr⟩]⟩) false createRes = (createRes, [HCall.netCreate])) := by
  refine ⟨?_, ?_, ?_⟩
  · match ips, hips with
    | [], _ => simp [Driver.validateNetwork, hn]
    | a :: b :: t, _ => simp [Driver.validateNetwork, hn]
    | [a], h => exact absurd rfl h
  · simp [Driver.validateNetwork, hn]
  · intro ha
    simp only [Driver.validateNetwork, if_neg hn]
    simp [ha]
    cases createRes <;> rfl

/-- C7 witness: the empty subnet list, the single DHCP-less subnet, and the
inactive network with a failing reactivation, on the default network name. -/
theorem validateNetwork_checks_witness :
    (Driver.validateNetwork "crc" none none (.ok "<network/>")
        (.ok ⟨[]⟩) true none =
      (some ("unexpected number of IPs for network " ++ "crc"), [])) ∧
    (Driver.validateNetwork "crc" none none (.ok "<network/>")
        (.ok ⟨[⟨""⟩]⟩) true none =
      (some ("crc" ++ " network doesn't have DHCP configured"), [])) ∧
    (Driver.validateNetwork "crc" none none (.ok "<network/>")
        (.ok ⟨[⟨"192.168.126.1"⟩]⟩) false (some "failed to start network") =
      (some "failed to start network", [HCall.netCreate])) :=
  ⟨(validateNetwork_checks "crc" "<network/>" "192.168.126.1" (by decide)
      [] (by decide) true none).1,
    (validateNetwork_checks "crc" "<network/>" "192.168.126.1" (by decide)
      [] (by decide) true none).2.1,
    (validateNetwork_checks "crc" "<network/>" "192.168.126.1" (by decide)
      [] (by decide) false (some "failed to start network")).2.2 (by decide)⟩

/-- C9: when the memory and vCPU steps succeed, UpdateConfigRaw queries the
live volume capacity on every invocation — even when the new configuration
equals the current record — so a failing capacity query is an error even
with no configuration change, and a new configuration with disk capacity 0
never triggers a resize. -/
theorem updateConfigRaw_always_queries_capacity
    (newDriver d : DriverState) (e : Err) (c m2 cp2 : Int)
    (n2 nw2 kp2 ip2 : String) :
    HCall.volCapQuery ∈
      (Driver.UpdateConfigRaw (.ok newDriver) none none none none none
        (.ok c) none d).2.2 ∧
    HCall.volCapQuery ∈
      (Driver.UpdateConfigRaw (.ok newDriver) none none none none none
        (.error e) none d).2.2 ∧
    (Driver.UpdateConfigRaw (.ok newDriver) none none none none none
        (.error e) none d).2.1 = some e ∧
    (Driver.UpdateConfigRaw (.ok d) none none none none none
        (.error e) none d).2.1 = some e ∧
    (Driver.UpdateConfigRaw (.ok ⟨n2, m2, cp2, nw2, kp2, 0, ip2⟩) none none
        none none none (.ok c) none d).2.2.any HCall.isResize = false := by
  refine ⟨?_, ?_, ?_, ?_, ?_⟩
  · by_cases hm : newDriver.Memory = d.Memory <;>
      by_cases hc : newDriver.CPU = d.CPU <;>
        by_cases hd : newDriver.DiskCapacity ≠ 0 ∧ newDriver.DiskCapacity ≠ c <;>
          simp [Driver.UpdateConfigRaw, Driver.setMemory, Driver.setVcpus,
            hm, hc, hd]
  · by_cases hm : newDriver.Memory = d.Memory <;>
      by_cases hc : newDriver.CPU = d.CPU <;>
        simp [Driver.UpdateConfigRaw, Driver.setMemory, Driver.setVcpus,
          hm, hc]
  · by_cases hm : newDriver.Memory = d.Memory <;>
      by_cases hc : newDriver.CPU = d.CPU <;>
        simp [Driver.UpdateConfigRaw, Driver.setMemory, Driver.setVcpus,
          hm, hc]
  · simp [Driver.UpdateConfigRaw]
  · by_cases hm : (m2 : Int) = d.Memory <;>
      by_cases hc : (cp2 : Int) = d.CPU <;>
        simp [Driver.UpdateConfigRaw, Driver.setMemory, Driver.setVcpus,
          HCall.isResize, hm, hc]

end MachineDriverKvm
